import Mathlib

/-!
Shallow embedding of the SkyCast weather-risk core (src/get_data.py and the
analysis/suggestion logic of src/app.py), with theorems checking the
specification claims about it.

Modelling conventions:
- pandas DataFrames become Lean lists of row structures; numeric cells are
  rationals, missing cells (NaN) are Option values in raw rows.
- network calls are made explicit: a provider function from the request to
  the fetch outcome is an extra argument of the functions that fetch.
- the random perturbations of the forecast simulator are an explicit
  argument (one draw record per position of the simulated date range).
- strftime "%m-%d" keys are modelled as the number month * 100 + day; since
  the strings are zero padded, lexicographic string order coincides with
  numeric order on this key, and pandas groupby sorts group keys ascending.
-/

/-- Calendar date (proleptic Gregorian), as a Python datetime.date value. -/
structure Date where
  year : Int
  month : Nat
  day : Nat
deriving DecidableEq, Repr

def isLeapYear (y : Int) : Bool :=
  (y % 4 == 0 && y % 100 != 0) || y % 400 == 0

def daysInMonth (y : Int) (m : Nat) : Nat :=
  if m = 2 then (if isLeapYear y then 29 else 28)
  else if m = 4 ∨ m = 6 ∨ m = 9 ∨ m = 11 then 30
  else 31

/-- Days since 1970-01-01 of a civil date (standard civil-from-days
algorithm; the date is assumed valid). -/
def daysFromCivil (dt : Date) : Int :=
  let y : Int := if dt.month ≤ 2 then dt.year - 1 else dt.year
  let era : Int := (if 0 ≤ y then y else y - 399) / 400
  let yoe : Int := y - era * 400
  let mp : Int := ((dt.month : Int) + 9) % 12
  let doy : Int := (153 * mp + 2) / 5 + (dt.day : Int) - 1
  let doe : Int := yoe * 365 + yoe / 4 - yoe / 100 + doy
  era * 146097 + doe - 719468

/-- Civil date of a count of days since 1970-01-01 (inverse of
daysFromCivil). -/
def civilFromDays (z0 : Int) : Date :=
  let z : Int := z0 + 719468
  let era : Int := (if 0 ≤ z then z else z - 146096) / 146097
  let doe : Int := z - era * 146097
  let yoe : Int := (doe - doe / 1460 + doe / 36524 - doe / 146096) / 365
  let y : Int := yoe + era * 400
  let doy : Int := doe - (365 * yoe + yoe / 4 - yoe / 100)
  let mp : Int := (5 * doy + 2) / 153
  let d : Int := doy - (153 * mp + 2) / 5 + 1
  let m : Int := if mp < 10 then mp + 3 else mp - 9
  ⟨if m ≤ 2 then y + 1 else y, m.toNat, d.toNat⟩

/-- date + timedelta(days=n). -/
def addDays (dt : Date) (n : Int) : Date :=
  civilFromDays (daysFromCivil dt + n)

/-- (a - b).days for two dates. -/
def daysBetween (a b : Date) : Int :=
  daysFromCivil a - daysFromCivil b

/-- dateutil relativedelta(years=n) subtraction: year decremented, month and
day preserved, with the day clamped to the last day of the target month
(Feb 29 shifted into a non-leap year becomes Feb 28). -/
def subYears (dt : Date) (n : Nat) : Date :=
  ⟨dt.year - n, dt.month, min dt.day (daysInMonth (dt.year - n) dt.month)⟩

/-- strftime "%m-%d" of a date, as the number month * 100 + day. -/
def monthDayKey (dt : Date) : Nat :=
  dt.month * 100 + dt.day

/-- pd.date_range(start, end): every calendar day of the inclusive range,
ascending; empty when end precedes start. -/
def dateRange (s e : Date) : List Date :=
  (List.range (daysBetween e s + 1).toNat).map (fun i => addDays s (i : Int))

/-- One raw daily record of an archive API response frame: the date plus the
four daily variables, each possibly missing (NaN). -/
structure RawRow where
  time : Date
  tmax : Option ℚ
  tmin : Option ℚ
  precip : Option ℚ
  wind : Option ℚ
deriving DecidableEq, Repr

/-- One row of a combined historical DataFrame after dropna: the date plus
temperature_2m_max, temperature_2m_min, precipitation_sum,
windspeed_10m_max. -/
structure CleanRow where
  time : Date
  tmax : ℚ
  tmin : ℚ
  precip : ℚ
  wind : ℚ
deriving DecidableEq, Repr

/-- DataFrame.dropna(): keep exactly the rows in which every field is
present. -/
def dropna (rows : List RawRow) : List CleanRow :=
  rows.filterMap (fun r =>
    match r.tmax, r.tmin, r.precip, r.wind with
    | some a, some b, some c, some d => some ⟨r.time, a, b, c, d⟩
    | _, _, _, _ => none)

/-- One yearly request of the historical archive API. -/
structure Request where
  lat : ℚ
  lon : ℚ
  past_start : Date
  past_end : Date
deriving DecidableEq, Repr

/-- Outcome of one yearly archive request: a transport failure (requests
raised), a non-200 status, a 200 response without a daily key, or a 200
response carrying a daily frame. -/
inductive FetchOutcome where
  | transportError : FetchOutcome
  | httpError (status : Nat) : FetchOutcome
  | noDaily : FetchOutcome
  | daily (rows : List RawRow) : FetchOutcome
deriving DecidableEq, Repr

/-- The 20 yearly requests issued by get_historical_data_for_event: for
i in range(20), the event window shifted back by i+1 years. -/
def yearRequests (lat lon : ℚ) (start_date end_date : Date) : List Request :=
  (List.range 20).map (fun i =>
    ⟨lat, lon, subYears start_date (i + 1), subYears end_date (i + 1)⟩)

/-- The daily frames of the yearly requests that succeeded with a daily
payload; failed or payload-less years contribute nothing. -/
def collectFrames (provider : Request → FetchOutcome) (lat lon : ℚ)
    (start_date end_date : Date) : List (List RawRow) :=
  (yearRequests lat lon start_date end_date).filterMap (fun rq =>
    match provider rq with
    | .daily rows => some rows
    | _ => none)

/-- get_data.get_historical_data_for_event: issue the 20 yearly requests,
skip every failed year, concatenate the successful frames and drop rows
with missing fields; empty DataFrame when no year delivered a frame. -/
def get_historical_data_for_event (provider : Request → FetchOutcome)
    (lat lon : ℚ) (start_date end_date : Date) : List CleanRow :=
  let all_years_df := collectFrames provider lat lon start_date end_date
  if all_years_df = [] then []
  else dropna all_years_df.flatten

/-- The rows of a historical DataFrame whose date carries the given
month-day key (one groupby group). -/
def monthDayRows (df : List CleanRow) (k : Nat) : List CleanRow :=
  df.filter (fun r => monthDayKey r.time == k)

/-- Arithmetic mean of a list of rationals (0 on the empty list; only used
on nonempty groups). -/
def ratMean (xs : List ℚ) : ℚ :=
  xs.sum / (xs.length : ℚ)

/-- One climatology entry: the per-field mean over the month-day group. -/
structure ClimEntry where
  tmax : ℚ
  tmin : ℚ
  precip : ℚ
  wind : ℚ
deriving DecidableEq, Repr

/-- groupby(month_day).agg(mean) on one key. -/
def climMean (df : List CleanRow) (k : Nat) : ClimEntry :=
  ⟨ratMean ((monthDayRows df k).map (fun r => r.tmax)),
   ratMean ((monthDayRows df k).map (fun r => r.tmin)),
   ratMean ((monthDayRows df k).map (fun r => r.precip)),
   ratMean ((monthDayRows df k).map (fun r => r.wind))⟩

/-- The index of the climatology: the distinct month-day keys of the
historical DataFrame. -/
def climKeys (df : List CleanRow) : List Nat :=
  (df.map (fun r => monthDayKey r.time)).dedup

/-- One record of random perturbations: the four np.random.uniform draws of
one simulated day, with supports (-2, 2), (-1.5, 1.5), (-1, 5), (-3, 3). -/
structure Perturb where
  dMax : ℚ
  dMin : ℚ
  dPrecip : ℚ
  dWind : ℚ
deriving DecidableEq, Repr

/-- Python max(0, x) on rationals: the clamp below at 0 of the simulator
(written with an explicit if so that concrete instances evaluate). -/
def max0 (x : ℚ) : ℚ :=
  if x ≤ 0 then 0 else x

/-- One simulated forecast row: Date, Max Temp, Min Temp, Rainfall, Wind. -/
structure SimRow where
  date : Date
  tempMax : ℚ
  tempMin : ℚ
  rain : ℚ
  wind : ℚ
deriving DecidableEq, Repr

/-- get_data.simulate_future_forecast: empty result on an empty historical
DataFrame; otherwise walk the inclusive date range, skip dates whose
month-day key is absent from the climatology, and emit the perturbed
climatology means, with rainfall and wind clamped below at 0. -/
def simulate_future_forecast (historical_df : List CleanRow)
    (start_date end_date : Date) (draws : Nat → Perturb) : List SimRow :=
  if historical_df = [] then []
  else (dateRange start_date end_date).enum.filterMap (fun p =>
    if monthDayKey p.2 ∈ climKeys historical_df then
      let avg_stats := climMean historical_df (monthDayKey p.2)
      let pr := draws p.1
      some ⟨p.2,
            avg_stats.tmax + pr.dMax,
            avg_stats.tmin + pr.dMin,
            max0 (avg_stats.precip + pr.dPrecip),
            max0 (avg_stats.wind + pr.dWind)⟩
    else none)

/-- The risk computation of app.run_analysis (spec name score_risk): the
exceedance probabilities of max temperature and precipitation against the
two thresholds, as percentages, together with the row count; all three are
0 on an empty dataset. -/
def score_risk (hist_df : List CleanRow) (hot_thresh rain_thresh : ℚ) :
    ℚ × ℚ × Nat :=
  if hist_df = [] then (0, 0, 0)
  else
    ((hist_df.countP (fun r => hot_thresh < r.tmax) : ℚ)
        / (hist_df.length : ℚ) * 100,
     (hist_df.countP (fun r => rain_thresh < r.precip) : ℚ)
        / (hist_df.length : ℚ) * 100,
     hist_df.length)

/-- The distinct month-day keys of the DataFrame in ascending order: pandas
groupby sorts group keys, and on the zero padded "%m-%d" strings
lexicographic order is numeric order of the key. -/
def groupKeys (df : List CleanRow) : List Nat :=
  List.insertionSort (· ≤ ·) (df.map (fun r => monthDayKey r.time)).dedup

/-- hot_prob + rain_prob of one month-day group of the search DataFrame
(the aggregation lambdas of find_best_dates: mean of the boolean exceedance
column times 100). -/
def totalRisk (df : List CleanRow) (hot_thresh rain_thresh : ℚ) (k : Nat) : ℚ :=
  ((monthDayRows df k).countP (fun r => hot_thresh < r.tmax) : ℚ)
      / ((monthDayRows df k).length : ℚ) * 100
    + ((monthDayRows df k).countP (fun r => rain_thresh < r.precip) : ℚ)
      / ((monthDayRows df k).length : ℚ) * 100

/-- The daily_risks frame of find_best_dates after reset_index: the sorted
month-day keys paired with their total_risk. -/
def dailyRisks (df : List CleanRow) (hot_thresh rain_thresh : ℚ) :
    List (Nat × ℚ) :=
  (groupKeys df).map (fun k => (k, totalRisk df hot_thresh rain_thresh k))

/-- Series.rolling(window=w).mean(): position i carries the mean of the w
entries ending at i, and no value while fewer than w entries have been
seen (pandas requires w at least 1; the callers pass a positive window). -/
def rollingMean (w : Nat) (xs : List ℚ) : List (Option ℚ) :=
  (List.range xs.length).map (fun i =>
    if w ≤ i + 1 then some (((xs.drop (i + 1 - w)).take w).sum / (w : ℚ))
    else none)

/-- Series.idxmin with positional labels: the position and value of the
first minimal non-missing entry, if any. -/
def idxminFrom : List (Option ℚ) → Nat → Option (Nat × ℚ)
  | [], _ => none
  | none :: rest, i => idxminFrom rest (i + 1)
  | some v :: rest, i =>
    match idxminFrom rest (i + 1) with
    | none => some (i, v)
    | some (j, u) => if u < v then some (j, u) else some (i, v)

/-- Series.idxmin over a RangeIndex, none when every entry is missing (the
guard of find_best_dates returns (None, None) in exactly that case). -/
def idxmin (xs : List (Option ℚ)) : Option Nat :=
  (idxminFrom xs 0).map Prod.fst

/-- The final date construction of find_best_dates: split the two "%m-%d"
keys, anchor the start at the given year, and anchor the end in the next
year when its month is numerically smaller than the start month. -/
def mkBestDates (year : Int) (startKey endKey : Nat) : Date × Date :=
  (⟨year, startKey / 100, startKey % 100⟩,
   if startKey / 100 ≤ endKey / 100 then ⟨year, endKey / 100, endKey % 100⟩
   else ⟨year + 1, endKey / 100, endKey % 100⟩)

/-- The window selection of find_best_dates: idxmin over the rolling mean
of total_risk, then the month-day keys of the first and last row of the
selected slice daily_risks.iloc[idx - d + 1 : idx + 1]. -/
def bestWindowKeys (df : List CleanRow) (hot_thresh rain_thresh : ℚ)
    (event_duration : Nat) : Option (Nat × Nat) :=
  match idxmin (rollingMean event_duration
      ((dailyRisks df hot_thresh rain_thresh).map Prod.snd)) with
  | none => none
  | some idx =>
    match (((dailyRisks df hot_thresh rain_thresh).drop
              (idx + 1 - event_duration)).take event_duration).head?,
          (((dailyRisks df hot_thresh rain_thresh).drop
              (idx + 1 - event_duration)).take event_duration).getLast? with
    | some s, some e => some (s.1, e.1)
    | _, _ => none

/-- get_data.find_best_dates: duration is computed from the original dates,
the search window is original_start plus and minus 30 days, the historical
DataFrame of the search window is grouped by month-day and the window of
the event duration with minimal rolling average total_risk is mapped back
to dates anchored at the year of original_start. -/
def find_best_dates (provider : Request → FetchOutcome) (lat lon : ℚ)
    (original_start original_end : Date) (hot_thresh rain_thresh : ℚ) :
    Option (Date × Date) :=
  let event_duration := (daysBetween original_end original_start + 1).toNat
  let search_start := addDays original_start (-30)
  let search_end := addDays original_start 30
  let wide_range_df :=
    get_historical_data_for_event provider lat lon search_start search_end
  if wide_range_df = [] then none
  else (bestWindowKeys wide_range_df hot_thresh rain_thresh
          event_duration).map (fun p => mkBestDates original_start.year p.1 p.2)

/-- Substring test on character lists (the Python "state in address"
membership test). -/
def containsSub (hay pat : List Char) : Bool :=
  (List.range (hay.length + 1)).any (fun i => pat.isPrefixOf (hay.drop i))

def cooler_south_india : List String :=
  ["Munnar, Kerala", "Ooty, Tamil Nadu", "Kodaikanal, Tamil Nadu"]

def cooler_north_india : List String :=
  ["Shimla, Himachal Pradesh", "Manali, Himachal Pradesh",
   "Nainital, Uttarakhand"]

def drier_india : List String :=
  ["Jaisalmer, Rajasthan", "Leh, Ladakh", "Pune, Maharashtra"]

def cooler_international : List String :=
  ["Zurich, Switzerland", "Vancouver, Canada", "Oslo, Norway"]

def drier_international : List String :=
  ["Dubai, UAE", "Cairo, Egypt", "Lima, Peru"]

def south_states : List String :=
  ["Kerala", "Tamil Nadu", "Karnataka", "Andhra Pradesh", "Telangana"]

/-- The source list selection of the suggestion block of the results
dashboard (app.py): the rain branch first, then the heat branch, and no
list when neither probability exceeds 50. -/
def suggestion_source (rain_prob hot_prob : ℚ) (country address : String) :
    List String :=
  if 50 < rain_prob then
    (if country = "India" then drier_india else drier_international)
  else if 50 < hot_prob then
    (if country = "India" then
      (if south_states.any (fun s => containsSub address.data s.data)
       then cooler_south_india else cooler_north_india)
     else cooler_international)
  else []

/-- The suggested locations of the results dashboard: random.sample of
min 3 entries from the selected source list (the sampling function is an
explicit argument; random.sample only picks elements of its list). -/
def suggested_locations (sample : List String → Nat → List String)
    (rain_prob hot_prob : ℚ) (country address : String) : List String :=
  if suggestion_source rain_prob hot_prob country address = [] then []
  else sample (suggestion_source rain_prob hot_prob country address)
    (min 3 (suggestion_source rain_prob hot_prob country address).length)

/-! Concrete fixtures used by witness and counterexample theorems. -/

/-- Fixture: a raw row with every field present (mild, dry, calm day). -/
def fullRow (d : Date) : RawRow := ⟨d, some 30, some 20, some 0, some 10⟩

/-- Fixture: one historical year of a window that straddles the turn of the
year: the six days Dec 28 to Jan 2. -/
def c1rows : List RawRow :=
  [fullRow ⟨2025, 12, 28⟩, fullRow ⟨2025, 12, 29⟩, fullRow ⟨2025, 12, 30⟩,
   fullRow ⟨2025, 12, 31⟩, fullRow ⟨2026, 1, 1⟩, fullRow ⟨2026, 1, 2⟩]

/-- Fixture provider: the first shifted year of the search window around
Dec 28 answers with c1rows, every other request fails in transport. -/
def pC1 : Request → FetchOutcome := fun rq =>
  if rq.past_start = ⟨2025, 11, 28⟩ then .daily c1rows else .transportError

/-- Fixture: one historical year with three consecutive June days. -/
def c3rows : List RawRow :=
  [fullRow ⟨2025, 6, 9⟩, fullRow ⟨2025, 6, 10⟩, fullRow ⟨2025, 6, 11⟩]

/-- Fixture provider: the first shifted year of the search window around
Jun 10 answers with c3rows, every other request fails in transport. -/
def pC3 : Request → FetchOutcome := fun rq =>
  if rq.past_start = ⟨2025, 5, 11⟩ then .daily c3rows else .transportError

/-- The search DataFrame fetched by find_best_dates for the pC3 fixture. -/
def dfC3 : List CleanRow :=
  get_historical_data_for_event pC3 10 76
    (addDays ⟨2026, 6, 10⟩ (-30)) (addDays ⟨2026, 6, 10⟩ 30)

/-- Fixture: a one-row historical dataset. -/
def wDf : List CleanRow := [⟨⟨2025, 6, 1⟩, 30, 20, 5, 10⟩]

/-- Fixture: a constant in-bounds perturbation draw. -/
def wDraws : Nat → Perturb := fun _ => ⟨1, 1, -1, -3⟩

/-- Fixture: a raw row whose precipitation field is missing, so dropna
discards it. -/
def badRow : RawRow := ⟨⟨2025, 6, 1⟩, some 30, some 20, none, some 10⟩

/-- Fixture provider: the first shifted year delivers one incomplete row,
every other request fails in transport. -/
def pC8 : Request → FetchOutcome := fun rq =>
  if rq.past_start = ⟨2025, 6, 1⟩ then .daily [badRow] else .transportError

/-- Fixture provider: every request fails in transport. -/
def pC9a : Request → FetchOutcome := fun _ => .transportError

/-- Fixture provider: requests at latitude 10 fail in transport, all others
would succeed with an empty frame; it agrees with pC9a on every request the
aggregator issues at latitude 10. -/
def pC9b : Request → FetchOutcome := fun rq =>
  if rq.lat = 10 then .transportError else .daily []

/-- Fixture sampling function: take the first n entries of the list. -/
def sampleTake : List String → Nat → List String := fun l n => l.take n

/-- The predicate of claim C8 read literally: the yearly fetch failed (any
transport error, non-200 status or missing daily key) or returned no data
(a daily frame with zero rows). -/
def fetch_failed_or_no_data : FetchOutcome → Bool
  | .daily rows => rows.isEmpty
  | _ => true

/-- A yearly fetch outcome that contributes no row to the combined dataset:
it failed, carried no daily frame, or all of its rows are dropped by
dropna for missing fields. -/
def contributes_no_rows : FetchOutcome → Prop
  | .daily rows => dropna rows = []
  | _ => True

/-! Helper lemmas. -/

theorem length_filterMap_of_isSome {α β : Type} (f : α → Option β) :
    ∀ l : List α, (∀ a ∈ l, (f a).isSome) → (l.filterMap f).length = l.length := by
  intro l
  induction l with
  | nil => intro _; rfl
  | cons a l ih =>
    intro h
    rcases ho : f a with _ | b
    · exact absurd (h a (List.mem_cons_self a l)) (by simp [ho])
    · rw [List.filterMap_cons, ho, List.length_cons,
        ih (fun x hx => h x (List.mem_cons_of_mem a hx)), List.length_cons]

theorem mem_of_getLast?_eq {α : Type} :
    ∀ {l : List α} {a : α}, l.getLast? = some a → a ∈ l := by
  intro l
  induction l with
  | nil => intro a h; cases h
  | cons x xs ih =>
    intro a h
    cases xs with
    | nil =>
      simp only [List.getLast?_singleton, Option.some.injEq] at h
      simp [h]
    | cons y ys =>
      rw [List.getLast?_cons_cons] at h
      exact List.mem_cons_of_mem x (ih h)

theorem pairwise_head_getLast {α : Type} {R : α → α → Prop} {l : List α}
    (hp : l.Pairwise R) {a b : α} (ha : l.head? = some a)
    (hb : l.getLast? = some b) : a = b ∨ R a b := by
  cases l with
  | nil => cases ha
  | cons x xs =>
    simp only [List.head?_cons, Option.some.injEq] at ha
    cases xs with
    | nil =>
      simp only [List.getLast?_singleton, Option.some.injEq] at hb
      left; rw [← ha, ← hb]
    | cons y ys =>
      right
      rw [List.getLast?_cons_cons] at hb
      have hmem : b ∈ y :: ys := mem_of_getLast?_eq hb
      rw [← ha]
      exact (List.pairwise_cons.mp hp).1 b hmem

theorem idxminFrom_mem :
    ∀ (xs : List (Option ℚ)) (i j : Nat) (u : ℚ),
      idxminFrom xs i = some (j, u) → some u ∈ xs := by
  intro xs
  induction xs with
  | nil => intro i j u h; cases h
  | cons o rest ih =>
    intro i j u h
    cases o with
    | none =>
      rw [idxminFrom] at h
      exact List.mem_cons_of_mem _ (ih (i + 1) j u h)
    | some v =>
      rw [idxminFrom] at h
      split at h
      · simp only [Option.some.injEq, Prod.mk.injEq] at h
        rw [← h.2]
        exact List.mem_cons_self _ _
      · rename_i j2 u2 hr
        split at h
        · simp only [Option.some.injEq, Prod.mk.injEq] at h
          rw [← h.2]
          exact List.mem_cons_of_mem _ (ih (i + 1) j2 u2 hr)
        · simp only [Option.some.injEq, Prod.mk.injEq] at h
          rw [← h.2]
          exact List.mem_cons_self _ _

theorem idxminFrom_replicate_none :
    ∀ (t : Nat) (ys : List (Option ℚ)) (i : Nat),
      idxminFrom (List.replicate t none ++ ys) i = idxminFrom ys (i + t) := by
  intro t
  induction t with
  | zero => intro ys i; rfl
  | succ t ih =>
    intro ys i
    rw [List.replicate_succ, List.cons_append, idxminFrom, ih ys (i + 1)]
    exact congrArg (idxminFrom ys) (by omega)

theorem idxminFrom_cons_const (c : ℚ) (rest : List (Option ℚ)) (i : Nat)
    (h : ∀ u : ℚ, some u ∈ rest → u = c) :
    idxminFrom (some c :: rest) i = some (i, c) := by
  rw [idxminFrom]
  split
  · rfl
  · rename_i j u hr
    have hu : u = c := h u (idxminFrom_mem rest (i + 1) j u hr)
    rw [hu, if_neg (lt_irrefl c)]

theorem rollingMean_length (w : Nat) (xs : List ℚ) :
    (rollingMean w xs).length = xs.length := by
  simp [rollingMean]

theorem rollingMean_const (d : Nat) (xs : List ℚ) (c : ℚ)
    (hd : 1 ≤ d) (hlen : d ≤ xs.length) (hc : ∀ x ∈ xs, x = c) :
    rollingMean d xs =
      List.replicate (d - 1) none ++
        List.replicate (xs.length - (d - 1)) (some c) := by
  apply List.ext_getElem?
  intro i
  by_cases hi : i < xs.length
  · have hlhs : (rollingMean d xs)[i]? =
        some (if d ≤ i + 1
          then some (((xs.drop (i + 1 - d)).take d).sum / (d : ℚ))
          else none) := by
      rw [rollingMean, List.getElem?_map, List.getElem?_range hi, Option.map_some']
    by_cases hw : d ≤ i + 1
    · have hmean : ((xs.drop (i + 1 - d)).take d).sum / (d : ℚ) = c := by
        have hsub : ∀ x ∈ (xs.drop (i + 1 - d)).take d, x = c :=
          fun x hx => hc x (List.drop_subset _ _ (List.take_subset _ _ hx))
        have hslen : ((xs.drop (i + 1 - d)).take d).length = d := by
          rw [List.length_take, List.length_drop]
          omega
        rw [List.sum_eq_card_nsmul _ c hsub, hslen, nsmul_eq_mul]
        exact mul_div_cancel_left₀ c (Nat.cast_ne_zero.mpr (by omega))
      rw [hlhs, if_pos hw, hmean, List.getElem?_append,
        if_neg (by rw [List.length_replicate]; omega),
        List.length_replicate, List.getElem?_replicate,
        if_pos (by omega)]
    · rw [hlhs, if_neg hw, List.getElem?_append,
        if_pos (by rw [List.length_replicate]; omega),
        List.getElem?_replicate, if_pos (by omega)]
  · have h1 : (rollingMean d xs).length ≤ i := by
      rw [rollingMean_length]; omega
    have h2 : (List.replicate (d - 1) none ++
        List.replicate (xs.length - (d - 1)) (some c)).length ≤ i := by
      rw [List.length_append, List.length_replicate, List.length_replicate]
      omega
    rw [List.getElem?_eq_none h1, List.getElem?_eq_none h2]

theorem dailyRisks_pairwise (df : List CleanRow) (hot_thresh rain_thresh : ℚ) :
    List.Pairwise (fun a b : Nat × ℚ => a.1 ≤ b.1)
      (dailyRisks df hot_thresh rain_thresh) :=
  List.Pairwise.map _ (fun _ _ hab => hab)
    (List.sorted_insertionSort (· ≤ ·) _)

theorem bestWindowKeys_le (df : List CleanRow) (hot_thresh rain_thresh : ℚ)
    (d ks ke : Nat)
    (h : bestWindowKeys df hot_thresh rain_thresh d = some (ks, ke)) :
    ks ≤ ke := by
  unfold bestWindowKeys at h
  split at h
  · exact Option.noConfusion h
  · rename_i idx hidx
    split at h
    · rename_i s e hh hl
      simp only [Option.some.injEq, Prod.mk.injEq] at h
      have hpair : List.Pairwise (fun a b : Nat × ℚ => a.1 ≤ b.1)
          (((dailyRisks df hot_thresh rain_thresh).drop (idx + 1 - d)).take d) :=
        List.Pairwise.sublist
          ((List.take_sublist _ _).trans (List.drop_sublist _ _))
          (dailyRisks_pairwise df hot_thresh rain_thresh)
      rcases pairwise_head_getLast hpair hh hl with heq | hle
      · rw [← h.1, ← h.2, heq]
      · rw [← h.1, ← h.2]; exact hle
    · exact Option.noConfusion h

theorem mkBestDates_anchor (year : Int) (ks ke : Nat) (hk : ks ≤ ke) :
    (mkBestDates year ks ke).1.year = year ∧
    (mkBestDates year ks ke).2.year = year ∧
    (mkBestDates year ks ke).1.month ≤ (mkBestDates year ks ke).2.month := by
  have hm : ks / 100 ≤ ke / 100 := Nat.div_le_div_right hk
  unfold mkBestDates
  rw [if_pos hm]
  exact ⟨rfl, rfl, hm⟩

theorem dailyRisks_getElem? (df : List CleanRow) (hot_thresh rain_thresh : ℚ)
    (i : Nat) (hi : i < (groupKeys df).length) :
    (dailyRisks df hot_thresh rain_thresh)[i]? =
      some ((groupKeys df)[i]!,
        totalRisk df hot_thresh rain_thresh ((groupKeys df)[i]!)) := by
  rw [dailyRisks, List.getElem?_map, List.getElem?_eq_getElem hi,
    Option.map_some', getElem!_pos (groupKeys df) i hi]

theorem bestWindowKeys_const (df : List CleanRow) (hot_thresh rain_thresh : ℚ)
    (d : Nat) (c : ℚ) (hd : 1 ≤ d) (hlen : d ≤ (groupKeys df).length)
    (hc : ∀ k ∈ groupKeys df, totalRisk df hot_thresh rain_thresh k = c) :
    bestWindowKeys df hot_thresh rain_thresh d =
      some ((groupKeys df)[0]!, (groupKeys df)[d - 1]!) := by
  have hrlen : ((dailyRisks df hot_thresh rain_thresh).map Prod.snd).length =
      (groupKeys df).length := by
    simp [dailyRisks]
  have hval : ∀ x ∈ (dailyRisks df hot_thresh rain_thresh).map Prod.snd,
      x = c := by
    intro x hx
    simp only [dailyRisks, List.map_map, List.mem_map, Function.comp] at hx
    obtain ⟨k, hk, hkx⟩ := hx
    rw [← hkx]
    exact hc k hk
  have hroll := rollingMean_const d
    ((dailyRisks df hot_thresh rain_thresh).map Prod.snd) c hd
    (by rw [hrlen]; exact hlen) hval
  have hsplit : ((dailyRisks df hot_thresh rain_thresh).map Prod.snd).length
      - (d - 1) = (((groupKeys df).length - d) + 1) := by
    rw [hrlen]; omega
  have hidx : idxmin (rollingMean d
      ((dailyRisks df hot_thresh rain_thresh).map Prod.snd)) = some (d - 1) := by
    rw [hroll, hsplit, List.replicate_succ, idxmin,
      idxminFrom_replicate_none (d - 1) _ 0,
      idxminFrom_cons_const c _ (0 + (d - 1))
        (fun u hu => Option.some_injective ℚ (List.eq_of_mem_replicate hu))]
    simp
  have hrisklen : (dailyRisks df hot_thresh rain_thresh).length =
      (groupKeys df).length := by
    simp [dailyRisks]
  have htlen : ((dailyRisks df hot_thresh rain_thresh).take d).length = d := by
    rw [List.length_take]
    omega
  have hh : ((dailyRisks df hot_thresh rain_thresh).take d).head? =
      some ((groupKeys df)[0]!,
        totalRisk df hot_thresh rain_thresh ((groupKeys df)[0]!)) := by
    rw [List.head?_eq_getElem?, List.getElem?_take, if_pos (by omega)]
    exact dailyRisks_getElem? df hot_thresh rain_thresh 0 (by omega)
  have hl : ((dailyRisks df hot_thresh rain_thresh).take d).getLast? =
      some ((groupKeys df)[d - 1]!,
        totalRisk df hot_thresh rain_thresh ((groupKeys df)[d - 1]!)) := by
    rw [List.getLast?_eq_getElem?, htlen, List.getElem?_take,
      if_pos (by omega)]
    exact dailyRisks_getElem? df hot_thresh rain_thresh (d - 1) (by omega)
  have h0 : d - 1 + 1 - d = 0 := by omega
  rw [bestWindowKeys, hidx]
  dsimp only
  rw [h0, List.drop_zero, hh, hl]

/-- Claim C7: a fully empty historical dataset is handled without error by
every downstream component: score_risk returns probability 0, 0 and total
observation days 0, and simulate_future_forecast returns the empty
sequence, for every choice of thresholds, date range and random draws. -/
theorem empty_dataset_graceful (hot_thresh rain_thresh : ℚ) (s e : Date)
    (draws : Nat → Perturb) :
    score_risk [] hot_thresh rain_thresh = (0, 0, 0) ∧
    simulate_future_forecast [] s e draws = [] := by
  constructor
  · rw [score_risk, if_pos rfl]
  · rw [simulate_future_forecast, if_pos rfl]

/-- Claim C6: on every non-empty historical dataset, score_risk computes
the hot probability as the count of rows with max temperature strictly
above the hot threshold divided by the row count times 100, the rain
probability likewise over precipitation, and both probabilities lie in
the interval from 0 to 100. -/
theorem score_risk_formula_bounds (df : List CleanRow)
    (hot_thresh rain_thresh : ℚ) (hdf : df ≠ []) :
    (score_risk df hot_thresh rain_thresh).1 =
        (df.countP (fun r => hot_thresh < r.tmax) : ℚ) / (df.length : ℚ) * 100 ∧
    (score_risk df hot_thresh rain_thresh).2.1 =
        (df.countP (fun r => rain_thresh < r.precip) : ℚ) / (df.length : ℚ) * 100 ∧
    0 ≤ (score_risk df hot_thresh rain_thresh).1 ∧
    (score_risk df hot_thresh rain_thresh).1 ≤ 100 ∧
    0 ≤ (score_risk df hot_thresh rain_thresh).2.1 ∧
    (score_risk df hot_thresh rain_thresh).2.1 ≤ 100 := by
  have hlen : (0 : ℚ) < (df.length : ℚ) :=
    Nat.cast_pos.mpr (List.length_pos.mpr hdf)
  have hfrac : ∀ cnt : Nat, cnt ≤ df.length →
      0 ≤ (cnt : ℚ) / (df.length : ℚ) * 100 ∧
      (cnt : ℚ) / (df.length : ℚ) * 100 ≤ 100 := by
    intro cnt hcnt
    constructor
    · positivity
    · have h1 : (cnt : ℚ) / (df.length : ℚ) ≤ 1 :=
        (div_le_one hlen).mpr (by exact_mod_cast hcnt)
      calc (cnt : ℚ) / (df.length : ℚ) * 100 ≤ 1 * 100 :=
            mul_le_mul_of_nonneg_right h1 (by norm_num)
        _ = 100 := one_mul 100
  rw [score_risk, if_neg hdf]
  exact ⟨rfl, rfl, (hfrac _ (List.countP_le_length _)).1,
    (hfrac _ (List.countP_le_length _)).2,
    (hfrac _ (List.countP_le_length _)).1,
    (hfrac _ (List.countP_le_length _)).2⟩

/-- Claim C6 witness: the theorem instantiated at the one-row fixture
dataset with the reference thresholds 32 degrees and 10 mm. -/
theorem score_risk_formula_bounds_witness :
    (score_risk wDf 32 10).1 =
        (wDf.countP (fun r => 32 < r.tmax) : ℚ) / (wDf.length : ℚ) * 100 ∧
    (score_risk wDf 32 10).2.1 =
        (wDf.countP (fun r => 10 < r.precip) : ℚ) / (wDf.length : ℚ) * 100 ∧
    0 ≤ (score_risk wDf 32 10).1 ∧ (score_risk wDf 32 10).1 ≤ 100 ∧
    0 ≤ (score_risk wDf 32 10).2.1 ∧ (score_risk wDf 32 10).2.1 ≤ 100 :=
  score_risk_formula_bounds wDf 32 10 (by decide)

/-- Claim C2: the rolling average series built by the date advisor has one
entry per group position; the first window minus one positions carry no
defined average, and every later position carries the mean of exactly the
window many consecutive total risk entries ending there. (The claimed
seven-parameter signature of find_best_dates is settled separately: the
definition in get_data.py takes six parameters and computes the duration
itself, while app.py calls it with seven arguments.) -/
theorem rollingMean_window_shape (w : Nat) (xs : List ℚ) (i : Nat)
    (hi : i < xs.length) :
    ((rollingMean w xs).length = xs.length) ∧
    (i + 1 < w → (rollingMean w xs)[i]? = some none) ∧
    (w ≤ i + 1 → (rollingMean w xs)[i]? =
      some (some (((xs.drop (i + 1 - w)).take w).sum / (w : ℚ)))) := by
  refine ⟨rollingMean_length w xs, ?_, ?_⟩
  · intro h
    rw [rollingMean, List.getElem?_map, List.getElem?_range hi,
      Option.map_some', if_neg (by omega)]
  · intro h
    rw [rollingMean, List.getElem?_map, List.getElem?_range hi,
      Option.map_some', if_pos h]

/-- Claim C2 witness: with window 3 over three entries, position 1 is
within the first two positions and has no defined average. -/
theorem rollingMean_window_shape_witness :
    (rollingMean 3 [1, 2, 3])[1]? = some none :=
  (rollingMean_window_shape 3 [1, 2, 3] 1 (by decide)).2.1 (by decide)

theorem max0_nonneg (x : ℚ) : 0 ≤ max0 x := by
  rw [max0]
  split_ifs with h
  · exact le_refl 0
  · exact le_of_not_le h

/-- Claim C4: for every historical dataset and every perturbation draw
within the uniform supports of the code (max temperature plus and minus 2,
min temperature plus and minus 1.5, precipitation from -1 to 5,
wind from -3 to 3), no simulated row carries a negative rainfall or wind
value, because both are clamped below at 0. -/
theorem simulate_forecast_rain_wind_nonneg (df : List CleanRow) (s e : Date)
    (draws : Nat → Perturb)
    (hb : ∀ i : Nat, -2 ≤ (draws i).dMax ∧ (draws i).dMax ≤ 2 ∧
        -(1.5 : ℚ) ≤ (draws i).dMin ∧ (draws i).dMin ≤ (1.5 : ℚ) ∧
        -1 ≤ (draws i).dPrecip ∧ (draws i).dPrecip ≤ 5 ∧
        -3 ≤ (draws i).dWind ∧ (draws i).dWind ≤ 3)
    (row : SimRow) (hrow : row ∈ simulate_future_forecast df s e draws) :
    0 ≤ row.rain ∧ 0 ≤ row.wind := by
  rw [simulate_future_forecast] at hrow
  split at hrow
  · cases hrow
  · obtain ⟨p, hp, hsome⟩ := List.mem_filterMap.mp hrow
    dsimp only at hsome
    split at hsome
    · simp only [Option.some.injEq] at hsome
      rw [← hsome]
      exact ⟨max0_nonneg _, max0_nonneg _⟩
    · cases hsome

/-- Claim C4 witness: the theorem instantiated at the one-row fixture
dataset, a one-day range and a constant in-bounds draw; the single
simulated row carries the perturbed climatology means with rainfall and
wind clamped below at 0. -/
theorem simulate_forecast_rain_wind_nonneg_witness :
    (0 : ℚ) ≤ (⟨⟨2026, 6, 1⟩, (climMean wDf 601).tmax + 1,
        (climMean wDf 601).tmin + 1, max0 ((climMean wDf 601).precip + (-1)),
        max0 ((climMean wDf 601).wind + (-3))⟩ : SimRow).rain ∧
    (0 : ℚ) ≤ (⟨⟨2026, 6, 1⟩, (climMean wDf 601).tmax + 1,
        (climMean wDf 601).tmin + 1, max0 ((climMean wDf 601).precip + (-1)),
        max0 ((climMean wDf 601).wind + (-3))⟩ : SimRow).wind :=
  simulate_forecast_rain_wind_nonneg wDf ⟨2026, 6, 1⟩ ⟨2026, 6, 1⟩ wDraws
    (fun _ => by norm_num [wDraws]) _
    ((show simulate_future_forecast wDf ⟨2026, 6, 1⟩ ⟨2026, 6, 1⟩ wDraws =
        [⟨⟨2026, 6, 1⟩, (climMean wDf 601).tmax + 1,
          (climMean wDf 601).tmin + 1,
          max0 ((climMean wDf 601).precip + (-1)),
          max0 ((climMean wDf 601).wind + (-3))⟩] from rfl) ▸
      List.mem_singleton_self _)

/-- Claim C5: the simulator emits at most one row per calendar day of the
inclusive range, and exactly one per day when every month-day of the range
is present in the climatology index. -/
theorem simulate_forecast_row_count (df : List CleanRow) (s e : Date)
    (draws : Nat → Perturb) :
    (simulate_future_forecast df s e draws).length ≤ (dateRange s e).length ∧
    ((∀ dt ∈ dateRange s e, monthDayKey dt ∈ climKeys df) →
      (simulate_future_forecast df s e draws).length = (dateRange s e).length) := by
  constructor
  · rw [simulate_future_forecast]
    split
    · simp
    · exact le_trans (List.length_filterMap_le _ _) (le_of_eq List.enum_length)
  · intro hall
    rw [simulate_future_forecast]
    split
    · rename_i hdf
      rcases hr : dateRange s e with _ | ⟨d0, rest⟩
      · simp [hr]
      · exfalso
        have hm := hall d0 (by rw [hr]; exact List.mem_cons_self _ _)
        rw [hdf] at hm
        simp [climKeys] at hm
    · rw [← List.enum_length (l := dateRange s e)]
      apply length_filterMap_of_isSome
      intro p hp
      have hp2 : p.2 ∈ dateRange s e := by
        obtain ⟨i, x⟩ := p
        obtain ⟨hi, hx⟩ := List.mem_enum hp
        exact hx ▸ List.getElem_mem hi
      have hkey : monthDayKey p.2 ∈ climKeys df := hall p.2 hp2
      simp [hkey]

/-- Claim C5 witness: at the one-row fixture dataset over a one-day range
whose month-day is present, the simulator emits exactly one row per day. -/
theorem simulate_forecast_row_count_witness :
    (simulate_future_forecast wDf ⟨2026, 6, 1⟩ ⟨2026, 6, 1⟩ wDraws).length =
      (dateRange ⟨2026, 6, 1⟩ ⟨2026, 6, 1⟩).length :=
  (simulate_forecast_row_count wDf ⟨2026, 6, 1⟩ ⟨2026, 6, 1⟩ wDraws).2
    (by decide)

/-- Claim C9: the aggregation is a pure function of coordinates and date
range: two runs of get_historical_data_for_event with identical arguments
against providers that answer every issued request identically return
identical historical datasets (no hidden mutable state). -/
theorem historical_data_deterministic (p q : Request → FetchOutcome)
    (lat lon : ℚ) (s e : Date)
    (h : ∀ rq ∈ yearRequests lat lon s e, p rq = q rq) :
    get_historical_data_for_event p lat lon s e =
      get_historical_data_for_event q lat lon s e := by
  have hc : collectFrames p lat lon s e = collectFrames q lat lon s e := by
    rw [collectFrames, collectFrames]
    exact List.filterMap_congr (fun rq hrq => by rw [h rq hrq])
  rw [get_historical_data_for_event, get_historical_data_for_event, hc]

/-- Claim C9 witness: an all-failing provider and a provider that fails
exactly at latitude 10 agree on every request issued for latitude 10, so
the two aggregations coincide. -/
theorem historical_data_deterministic_witness :
    get_historical_data_for_event pC9a 10 76 ⟨2026, 6, 1⟩ ⟨2026, 6, 3⟩ =
      get_historical_data_for_event pC9b 10 76 ⟨2026, 6, 1⟩ ⟨2026, 6, 3⟩ :=
  historical_data_deterministic pC9a pC9b 10 76 ⟨2026, 6, 1⟩ ⟨2026, 6, 3⟩
    (by decide)

/-- Claim C10: in the suggestion block the rain branch takes strict
precedence: whenever the rain probability exceeds 50 (in particular when
both probabilities exceed 50) every suggested location comes from one of
the two drier lists, and a suggestion from a cooler list can only be
produced when the heat probability exceeds 50 and the rain probability
does not. -/
theorem rain_branch_precedence (sample : List String → Nat → List String)
    (rain_prob hot_prob : ℚ) (country address : String)
    (hs : ∀ (l : List String) (n : Nat) (x : String), x ∈ sample l n → x ∈ l) :
    (50 < rain_prob → 50 < hot_prob →
      ∀ x ∈ suggested_locations sample rain_prob hot_prob country address,
        x ∈ drier_india ∨ x ∈ drier_international) ∧
    ((∃ x ∈ suggested_locations sample rain_prob hot_prob country address,
        x ∈ cooler_south_india ∨ x ∈ cooler_north_india ∨
          x ∈ cooler_international) →
      50 < hot_prob ∧ rain_prob ≤ 50) := by
  have hdrier : 50 < rain_prob →
      ∀ x ∈ suggested_locations sample rain_prob hot_prob country address,
        x ∈ drier_india ∨ x ∈ drier_international := by
    intro hr x hx
    have hsrc : suggestion_source rain_prob hot_prob country address =
        if country = "India" then drier_india else drier_international := by
      rw [suggestion_source, if_pos hr]
    have hne : suggestion_source rain_prob hot_prob country address ≠ [] := by
      rw [hsrc]
      split_ifs <;> simp [drier_india, drier_international]
    rw [suggested_locations, if_neg hne] at hx
    have hx2 := hs _ _ x hx
    rw [hsrc] at hx2
    by_cases hcountry : country = "India"
    · rw [if_pos hcountry] at hx2
      exact Or.inl hx2
    · rw [if_neg hcountry] at hx2
      exact Or.inr hx2
  refine ⟨fun hr _ => hdrier hr, ?_⟩
  rintro ⟨x, hx, hcool⟩
  by_cases hr : 50 < rain_prob
  · exfalso
    have hdisj : ∀ y ∈ drier_india ++ drier_international,
        ¬ (y ∈ cooler_south_india ∨ y ∈ cooler_north_india ∨
            y ∈ cooler_international) := by decide
    rcases hdrier hr x hx with h1 | h1
    · exact hdisj x (List.mem_append_left _ h1) hcool
    · exact hdisj x (List.mem_append_right _ h1) hcool
  · by_cases hh : 50 < hot_prob
    · exact ⟨hh, le_of_not_lt hr⟩
    · exfalso
      have hsrc : suggestion_source rain_prob hot_prob country address = [] := by
        rw [suggestion_source, if_neg hr, if_neg hh]
      rw [suggested_locations, if_pos hsrc] at hx
      cases hx

/-- Claim C10 witness: the theorem instantiated at a take-sampler, rain
probability 60, heat probability 55, an India address; both probabilities
exceed 50 and the suggestions come from the drier lists only. -/
theorem rain_branch_precedence_witness :
    (50 < (60 : ℚ) → 50 < (55 : ℚ) →
      ∀ x ∈ suggested_locations sampleTake 60 55 "India" "Kochi, Kerala, India",
        x ∈ drier_india ∨ x ∈ drier_international) ∧
    ((∃ x ∈ suggested_locations sampleTake 60 55 "India" "Kochi, Kerala, India",
        x ∈ cooler_south_india ∨ x ∈ cooler_north_india ∨
          x ∈ cooler_international) →
      50 < (55 : ℚ) ∧ (60 : ℚ) ≤ 50) :=
  rain_branch_precedence sampleTake 60 55 "India" "Kochi, Kerala, India"
    (fun l n x hx => List.take_subset n l hx)

theorem dropna_flatten (L : List (List RawRow)) :
    dropna L.flatten = (L.map dropna).flatten :=
  List.filterMap_flatten _ L

/-- Claim C8 counterexample: a provider whose first shifted year delivers
one row with a missing precipitation field (and every other year fails in
transport) makes the aggregation return the empty dataset even though not
every yearly fetch failed or returned no data: the first fetch succeeded
and carried a non-empty daily frame. -/
theorem historical_empty_iff_counterexample :
    get_historical_data_for_event pC8 10 76 ⟨2026, 6, 1⟩ ⟨2026, 6, 3⟩ = [] ∧
    ¬ (∀ rq ∈ yearRequests 10 76 ⟨2026, 6, 1⟩ ⟨2026, 6, 3⟩,
        fetch_failed_or_no_data (pC8 rq) = true) := by
  decide

/-- Claim C8 (amended): a failed year is skipped silently and never aborts
the aggregation: the result is always the row-filtered concatenation of
exactly the successfully fetched daily frames; and the result is empty
precisely when every yearly fetch failed, carried no daily frame, or
contributed only rows with missing fields (dropped by dropna). -/
theorem historical_skip_and_empty_iff (provider : Request → FetchOutcome)
    (lat lon : ℚ) (s e : Date) :
    get_historical_data_for_event provider lat lon s e =
      dropna (collectFrames provider lat lon s e).flatten ∧
    (get_historical_data_for_event provider lat lon s e = [] ↔
      ∀ rq ∈ yearRequests lat lon s e, contributes_no_rows (provider rq)) := by
  have h1 : get_historical_data_for_event provider lat lon s e =
      dropna (collectFrames provider lat lon s e).flatten := by
    rw [get_historical_data_for_event]
    split
    · rename_i hc
      rw [hc]
      rfl
    · rfl
  refine ⟨h1, ?_⟩
  rw [h1, dropna_flatten, List.flatten_eq_nil_iff]
  constructor
  · intro h rq hrq
    cases hp : provider rq with
    | daily rows =>
      have hrows : rows ∈ collectFrames provider lat lon s e := by
        rw [collectFrames]
        exact List.mem_filterMap.mpr ⟨rq, hrq, by simp only [hp]⟩
      have hd := h (dropna rows) (List.mem_map_of_mem dropna hrows)
      simp only [contributes_no_rows, hp]
      exact hd
    | transportError => simp only [contributes_no_rows, hp]
    | httpError status => simp only [contributes_no_rows, hp]
    | noDaily => simp only [contributes_no_rows, hp]
  · intro h l hl
    obtain ⟨rows, hrows, hval⟩ := List.mem_map.mp hl
    rw [collectFrames] at hrows
    obtain ⟨rq, hrq, hg⟩ := List.mem_filterMap.mp hrows
    have hcon := h rq hrq
    cases hp : provider rq with
    | daily rows2 =>
      simp only [hp, Option.some.injEq] at hg
      simp only [contributes_no_rows, hp] at hcon
      rw [← hval, ← hg]
      exact hcon
    | transportError => simp [hp] at hg
    | httpError status => simp [hp] at hg
    | noDaily => simp [hp] at hg

/-- Claim C1 counterexample: for the event Dec 28 2026 to Jan 2 2027 (a
window spanning the turn of the year) with one historical year covering
exactly those six month-days, find_best_dates returns the window from
Jan 1 2026 to Dec 31 2026: both returned dates are anchored in 2026, so
the returned end date does not fall in the year following the returned
start date. The December to January rollover branch never fires because
the month-day groups are sorted ascending, which places the January keys
before the December keys. -/
theorem find_best_dates_dec_jan_same_year :
    find_best_dates pC1 10 76 ⟨2026, 12, 28⟩ ⟨2027, 1, 2⟩ 32 10 =
      some (⟨2026, 1, 1⟩, ⟨2026, 12, 31⟩) ∧
    ¬ ((⟨2026, 12, 31⟩ : Date).year = (⟨2026, 1, 1⟩ : Date).year + 1) := by
  decide

/-- Claim C1 (amended): the selected window start is always anchored at the
year of the original start date, and because the month-day groups are
sorted ascending the selected window end month is never numerically
smaller than its start month, so the end date is anchored in that same
year as well (the year + 1 branch of the date construction is
unreachable). -/
theorem find_best_dates_year_anchor (provider : Request → FetchOutcome)
    (lat lon : ℚ) (original_start original_end : Date)
    (hot_thresh rain_thresh : ℚ) (bs be : Date)
    (h : find_best_dates provider lat lon original_start original_end
        hot_thresh rain_thresh = some (bs, be)) :
    bs.year = original_start.year ∧ be.year = original_start.year ∧
      bs.month ≤ be.month := by
  simp only [find_best_dates] at h
  split at h
  · exact Option.noConfusion h
  · rw [Option.map_eq_some'] at h
    obtain ⟨⟨ks, ke⟩, hbw, hmk⟩ := h
    have hk : ks ≤ ke := bestWindowKeys_le _ _ _ _ _ _ hbw
    have hm := mkBestDates_anchor original_start.year ks ke hk
    rw [hmk] at hm
    simpa using hm

/-- Claim C1 witness: the amended theorem applied to the concrete turn of
the year fixture; both returned dates are anchored at 2026. -/
theorem find_best_dates_year_anchor_witness :
    (⟨2026, 1, 1⟩ : Date).year = (⟨2026, 12, 28⟩ : Date).year ∧
    (⟨2026, 12, 31⟩ : Date).year = (⟨2026, 12, 28⟩ : Date).year ∧
    (⟨2026, 1, 1⟩ : Date).month ≤ (⟨2026, 12, 31⟩ : Date).month :=
  find_best_dates_year_anchor pC1 10 76 ⟨2026, 12, 28⟩ ⟨2027, 1, 2⟩ 32 10
    ⟨2026, 1, 1⟩ ⟨2026, 12, 31⟩ (by decide)

/-- Claim C3: when every month-day group of the search DataFrame carries
the same total risk, the first complete rolling window wins (idxmin keeps
the first occurrence of the minimum), so find_best_dates returns the
earliest positioned window of the event duration in the sorted group
sequence. -/
theorem find_best_dates_constant_risk_earliest
    (provider : Request → FetchOutcome) (lat lon : ℚ)
    (original_start original_end : Date) (hot_thresh rain_thresh c : ℚ)
    (hdf : get_historical_data_for_event provider lat lon
        (addDays original_start (-30)) (addDays original_start 30) ≠ [])
    (hd : 1 ≤ (daysBetween original_end original_start + 1).toNat)
    (hlen : (daysBetween original_end original_start + 1).toNat ≤
      (groupKeys (get_historical_data_for_event provider lat lon
        (addDays original_start (-30)) (addDays original_start 30))).length)
    (hc : ∀ k ∈ groupKeys (get_historical_data_for_event provider lat lon
        (addDays original_start (-30)) (addDays original_start 30)),
      totalRisk (get_historical_data_for_event provider lat lon
          (addDays original_start (-30)) (addDays original_start 30))
        hot_thresh rain_thresh k = c) :
    find_best_dates provider lat lon original_start original_end
        hot_thresh rain_thresh =
      some (mkBestDates original_start.year
        ((groupKeys (get_historical_data_for_event provider lat lon
          (addDays original_start (-30)) (addDays original_start 30)))[0]!)
        ((groupKeys (get_historical_data_for_event provider lat lon
          (addDays original_start (-30)) (addDays original_start 30)))[
            (daysBetween original_end original_start + 1).toNat - 1]!)) := by
  simp only [find_best_dates]
  rw [if_neg hdf, bestWindowKeys_const _ _ _ _ c hd hlen hc]
  rfl

/-- Claim C3 witness: three June days with one historical row each and a
constant risk of 0; for a three-day event the returned window is the one
built from the first and third sorted group keys. -/
theorem find_best_dates_constant_risk_earliest_witness :
    find_best_dates pC3 10 76 ⟨2026, 6, 10⟩ ⟨2026, 6, 12⟩ 32 10 =
      some (mkBestDates (⟨2026, 6, 10⟩ : Date).year
        ((groupKeys dfC3)[0]!)
        ((groupKeys dfC3)[
          (daysBetween ⟨2026, 6, 12⟩ ⟨2026, 6, 10⟩ + 1).toNat - 1]!)) :=
  find_best_dates_constant_risk_earliest pC3 10 76 ⟨2026, 6, 10⟩
    ⟨2026, 6, 12⟩ 32 10 0 (by decide) (by decide) (by decide)
    (by
      intro k hk
      have hdf3 : get_historical_data_for_event pC3 10 76
          (addDays ⟨2026, 6, 10⟩ (-30)) (addDays ⟨2026, 6, 10⟩ 30) = dfC3 := rfl
      rw [hdf3] at hk ⊢
      rw [show groupKeys dfC3 = [609, 610, 611] from by decide] at hk
      have h9 : monthDayRows dfC3 609 = [⟨⟨2025, 6, 9⟩, 30, 20, 0, 10⟩] := by
        decide
      have h10 : monthDayRows dfC3 610 = [⟨⟨2025, 6, 10⟩, 30, 20, 0, 10⟩] := by
        decide
      have h11 : monthDayRows dfC3 611 = [⟨⟨2025, 6, 11⟩, 30, 20, 0, 10⟩] := by
        decide
      fin_cases hk <;>
        norm_num [totalRisk, h9, h10, h11, List.countP_cons, List.countP_nil])
